import Mathlib

/-!
Shallow embedding of `src/calculator.py`.

Python numbers are duck-typed: each operation receives ints or floats and
relies on Python's numeric promotion (`int op int` stays `int`, any float
operand makes the result a float, and `/` is true division that always
yields a float).  We model a Python number as a tagged value `PyNum`
carrying an exact rational payload; the `float` tag records Python's
dynamic type while the payload records the numeric value in the idealized
exact-arithmetic reading that the spec itself adopts (the spec fixes no
precision or rounding policy beyond native semantics, so `-0.0` is
modelled as `float 0`, which Python's `==` identifies with `0`).

`divide` raises `ValueError("Cannot divide by zero")`; the spec calls the
single error kind `InvalidOperation`, so the error type here is the
one-constructor `CalcError.invalidOperation` carrying the message string.
Raising is modelled with `Except`: an `error` result means the function
terminated at the `raise` and produced no quotient.

The Python bodies are straight-line code containing no statement that
reads or writes anything outside the call's own locals.  To make
side-effect claims statable, each operation also gets a `...Run` form:
the body elaborated in an effect-trace reading, returning the value
together with the list of observable effects the body performed (empty,
since the bodies contain no effectful statement).
-/

namespace Calc

/-- A Python numeric value: an `int` or a `float`, with the exact value
as payload. -/
inductive PyNum where
  | int (z : Int)
  | float (q : ℚ)
deriving DecidableEq, Repr

/-- The numeric value a `PyNum` denotes (Python's `==` compares these). -/
def PyNum.val : PyNum → ℚ
  | .int z => (z : ℚ)
  | .float q => q

/-- Whether the dynamic type is `float`. -/
def PyNum.isFloat : PyNum → Bool
  | .int _ => false
  | .float _ => true

/-- Python `a + b` with numeric promotion. -/
def pyAdd : PyNum → PyNum → PyNum
  | .int x, .int y => .int (x + y)
  | .int x, .float y => .float (x + y)
  | .float x, .int y => .float (x + y)
  | .float x, .float y => .float (x + y)

/-- Python `a - b` with numeric promotion. -/
def pySub : PyNum → PyNum → PyNum
  | .int x, .int y => .int (x - y)
  | .int x, .float y => .float (x - y)
  | .float x, .int y => .float (x - y)
  | .float x, .float y => .float (x - y)

/-- Python `a * b` with numeric promotion. -/
def pyMul : PyNum → PyNum → PyNum
  | .int x, .int y => .int (x * y)
  | .int x, .float y => .float (x * y)
  | .float x, .int y => .float (x * y)
  | .float x, .float y => .float (x * y)

/-- Python unary `-a` (type-preserving). -/
def pyNeg : PyNum → PyNum
  | .int z => .int (-z)
  | .float q => .float (-q)

/-- Python `a / b`: true division, always producing a float. -/
def pyDiv (a b : PyNum) : PyNum := .float (a.val / b.val)

/-- The spec's single error kind, carrying the raised message. -/
inductive CalcError where
  | invalidOperation (msg : String)
deriving DecidableEq, Repr

/-- An observable side effect a body could perform (none of the four
bodies contains any effectful statement). -/
inductive Effect where
  | io (s : String)
deriving DecidableEq, Repr

/-- `add(a, b)`: `return a + b`. -/
def add (a b : PyNum) : PyNum := pyAdd a b

/-- `subtract(a, b)`: binds the dead local `unused_variable = 123`, then
`return a - b`. -/
def subtract (a b : PyNum) : PyNum :=
  let _unused_variable : Int := 123
  pySub a b

/-- `multiply(a, b)`: `return a * b`. -/
def multiply (a b : PyNum) : PyNum := pyMul a b

/-- `divide(a, b)`: `if b == 0: raise ValueError("Cannot divide by zero")`,
else `return a / b`.  The guard compares the numeric value of `b` with
zero, before any division happens. -/
def divide (a b : PyNum) : Except CalcError PyNum :=
  if b.val = 0 then .error (.invalidOperation "Cannot divide by zero")
  else .ok (pyDiv a b)

/-- `add`'s body in the effect-trace reading: its single statement is a
pure `return`, so the trace is empty. -/
def addRun (a b : PyNum) : PyNum × List Effect := (add a b, [])

/-- `subtract`'s body in the effect-trace reading: a local assignment and
a `return`, neither effectful. -/
def subtractRun (a b : PyNum) : PyNum × List Effect := (subtract a b, [])

/-- `multiply`'s body in the effect-trace reading. -/
def multiplyRun (a b : PyNum) : PyNum × List Effect := (multiply a b, [])

/-- `divide`'s body in the effect-trace reading: both branches (the
`raise` and the `return`) perform no observable effect. -/
def divideRun (a b : PyNum) : Except CalcError PyNum × List Effect :=
  (divide a b, [])

/-- The plain expression `a - b`, with no surrounding body, used to state
that `subtract`'s dead local assignment does not change the result. -/
def rawDifference (a b : PyNum) : PyNum := pySub a b

/-- C1: for every numeric `a`, `divide(a, 0)` — whether the zero divisor
is the int `0` or a float equal to zero — fails with the
`InvalidOperation` error carrying the message "Cannot divide by zero".
The `error` result is produced by the guard alone: no quotient is
computed, so no partial computation occurs. -/
theorem divide_by_zero_raises (a : PyNum) :
    divide a (.int 0) = .error (.invalidOperation "Cannot divide by zero") ∧
    divide a (.float 0) = .error (.invalidOperation "Cannot divide by zero") := by
  constructor <;> simp [divide, PyNum.val]

/-- C2: for every numeric `a` and nonzero numeric `b`, `divide(a, b)`
raises no error and returns the true quotient `a / b`, tagged `float`
even when both inputs are ints (true division, never truncating). -/
theorem divide_nonzero_true_division (a b : PyNum) (h : b.val ≠ 0) :
    divide a b = .ok (.float (a.val / b.val)) ∧
    (PyNum.float (a.val / b.val)).isFloat = true := by
  refine ⟨?_, rfl⟩
  simp [divide, pyDiv, h]

/-- Witness for C2 at `divide(10, -2) = -5.0`. -/
theorem divide_nonzero_true_division_witness :
    divide (.int 10) (.int (-2)) =
      .ok (.float ((PyNum.int 10).val / (PyNum.int (-2)).val)) ∧
    (PyNum.float ((PyNum.int 10).val / (PyNum.int (-2)).val)).isFloat = true :=
  divide_nonzero_true_division (.int 10) (.int (-2)) (by norm_num [PyNum.val])

/-- C3: for all numeric `a`, `b`, `add(a, b)` returns the sum `a + b`
under standard numeric addition (its value is exactly `a.val + b.val`),
and its body performs no side effect; it returns a plain value, so it
never fails. -/
theorem add_returns_sum (a b : PyNum) :
    (add a b).val = a.val + b.val ∧ (addRun a b).snd = [] := by
  refine ⟨?_, rfl⟩
  cases a <;> cases b <;> simp [add, pyAdd, PyNum.val]

/-- C4: for all numeric `a`, `b`, `subtract(a, b)` returns exactly the
plain expression `a - b` — the dead local assignment has no effect on the
result — its value is `a.val - b.val`, it performs no side effect, and it
never fails. -/
theorem subtract_returns_difference (a b : PyNum) :
    subtract a b = rawDifference a b ∧
    (subtract a b).val = a.val - b.val ∧
    (subtractRun a b).snd = [] := by
  refine ⟨rfl, ?_, rfl⟩
  cases a <;> cases b <;> simp [subtract, rawDifference, pySub, PyNum.val]

/-- C5: for all numeric `a`, `b`, `multiply(a, b)` returns the product
`a * b` (its value is exactly `a.val * b.val`), performs no side effect,
and never fails. -/
theorem multiply_returns_product (a b : PyNum) :
    (multiply a b).val = a.val * b.val ∧ (multiplyRun a b).snd = [] := by
  refine ⟨?_, rfl⟩
  cases a <;> cases b <;> simp [multiply, pyMul, PyNum.val]

/-- C6: `add` is commutative: `add(a, b) = add(b, a)` as Python values
(same dynamic type and same numeric value). -/
theorem add_commutative (a b : PyNum) : add a b = add b a := by
  cases a <;> cases b <;> simp [add, pyAdd] <;> ring

/-- C7: `subtract` is antisymmetric: `subtract(a, b)` equals the Python
negation of `subtract(b, a)`, as values of the same dynamic type. -/
theorem subtract_antisymmetric (a b : PyNum) :
    subtract a b = pyNeg (subtract b a) := by
  cases a <;> cases b <;> simp [subtract, pySub, pyNeg]

/-- C8: for every numeric `a` and nonzero numeric `b`, `divide(a, b)`
succeeds with some quotient `q`, and `multiply(q, b)` has exactly the
numeric value `a` in this exact-arithmetic model — hence it approximately
equals `a` within every nonnegative floating-point tolerance. -/
theorem divide_multiply_roundtrip (a b : PyNum) (h : b.val ≠ 0) :
    ∃ q, divide a b = .ok q ∧ (multiply q b).val = a.val := by
  refine ⟨.float (a.val / b.val), by simp [divide, pyDiv, h], ?_⟩
  cases b <;> simp [multiply, pyMul, PyNum.val] <;>
    [skip; skip] <;> exact div_mul_cancel₀ _ (by simpa [PyNum.val] using h)

/-- Witness for C8 at `a = 10`, `b = -2`. -/
theorem divide_multiply_roundtrip_witness :
    ∃ q, divide (.int 10) (.int (-2)) = .ok q ∧
      (multiply q (.int (-2))).val = (PyNum.int 10).val :=
  divide_multiply_roundtrip (.int 10) (.int (-2)) (by norm_num [PyNum.val])

/-- C9: all four operations are referentially transparent: two calls with
identical inputs produce identical outcomes (same value, or same error
for a zero divisor), and each body's effect trace is empty. -/
theorem ops_referentially_transparent (a b a2 b2 : PyNum)
    (ha : a = a2) (hb : b = b2) :
    addRun a b = addRun a2 b2 ∧
    subtractRun a b = subtractRun a2 b2 ∧
    multiplyRun a b = multiplyRun a2 b2 ∧
    divideRun a b = divideRun a2 b2 ∧
    (addRun a b).snd = [] ∧ (subtractRun a b).snd = [] ∧
    (multiplyRun a b).snd = [] ∧ (divideRun a b).snd = [] := by
  subst ha hb
  exact ⟨rfl, rfl, rfl, rfl, rfl, rfl, rfl, rfl⟩

/-- Witness for C9 at `a = 2`, `b = 3.5`. -/
theorem ops_referentially_transparent_witness :
    addRun (.int 2) (.float (7/2)) = addRun (.int 2) (.float (7/2)) ∧
    subtractRun (.int 2) (.float (7/2)) = subtractRun (.int 2) (.float (7/2)) ∧
    multiplyRun (.int 2) (.float (7/2)) = multiplyRun (.int 2) (.float (7/2)) ∧
    divideRun (.int 2) (.float (7/2)) = divideRun (.int 2) (.float (7/2)) ∧
    (addRun (.int 2) (.float (7/2))).snd = [] ∧
    (subtractRun (.int 2) (.float (7/2))).snd = [] ∧
    (multiplyRun (.int 2) (.float (7/2))).snd = [] ∧
    (divideRun (.int 2) (.float (7/2))).snd = [] :=
  ops_referentially_transparent (.int 2) (.float (7/2)) (.int 2) (.float (7/2))
    rfl rfl

/-- C10: `divide`'s error branch is taken exactly when the divisor's
numeric value compares equal to zero (so a float zero — including
Python's `-0.0`, which compares equal to `0` and is the value `float 0`
here — also raises), and every successful result is the finite quotient
`a / b` with a nonzero divisor: no division by a zero divisor is ever
performed and no infinite value is returned. -/
theorem divide_error_branch_iff_zero (a b : PyNum) :
    ((∃ e, divide a b = .error e) ↔ b.val = 0) ∧
    (∀ q, divide a b = .ok q → b.val ≠ 0 ∧ q = .float (a.val / b.val)) := by
  constructor
  · constructor
    · rintro ⟨e, he⟩
      by_contra h
      simp [divide, pyDiv, h] at he
    · intro h
      exact ⟨.invalidOperation "Cannot divide by zero", by simp [divide, h]⟩
  · intro q hq
    by_cases h : b.val = 0
    · simp [divide, h] at hq
    · refine ⟨h, ?_⟩
      simpa [divide, pyDiv, h] using hq.symm

/-- Closed instance of C10 at `a = 1`, `b = -0.0` (modelled `float 0`). -/
theorem divide_error_branch_iff_zero_witness :
    ((∃ e, divide (.int 1) (.float 0) = .error e) ↔ (PyNum.float 0).val = 0) ∧
    (∀ q, divide (.int 1) (.float 0) = .ok q →
      (PyNum.float 0).val ≠ 0 ∧
      q = .float ((PyNum.int 1).val / (PyNum.float 0).val)) :=
  divide_error_branch_iff_zero (.int 1) (.float 0)

end Calc
